import Mathlib

/-!
Shallow embedding of `opentelemetry-instrumentation-fastapi_events`
(`src/opentelemetry/instrumentation/fastapi_events/__init__.py`).

The module consists of three span-wrapping adapters (`_handle_wrapper`,
`_handle_many_wrapper`, `_dispatch_wrapper`) and an instrumentor whose
`_instrument` discovers handler classes by reflection and monkey-patches
their `handle`/`handle_many` methods plus the module-level `_dispatch`
function, and whose `_uninstrument` reverses the patches.

Python values relevant to the wrappers are modelled by `PyVal`; a wrapper
invocation is modelled as a pure function from the wrapped callable and the
`(args, kwargs)` of the call to a `WrapResult` recording the span trace, the
delegated calls with their exact arguments, and the propagated result.
-/

/-- A Python value as far as the wrappers inspect one: `None`, a string, or
a sequence (events are sequences whose first element is the event name). -/
inductive PyVal where
  | none
  | str (s : String)
  | list (xs : List PyVal)

/-- A Python exception escaping a wrapper: the `TypeError` raised by
subscripting `None`, an `IndexError` from an out-of-range subscript, or an
arbitrary exception raised inside the wrapped original call. -/
inductive PyErr where
  | typeError (msg : String)
  | indexError
  | raised (code : Nat)
deriving DecidableEq

mutual

/-- Python `repr()` on the modelled values (used by `str()` on a list). -/
def pyRepr : PyVal → String
  | .none => "None"
  | .str s => "'" ++ s ++ "'"
  | .list xs => "[" ++ String.intercalate ", " (pyReprList xs) ++ "]"

/-- Python `repr()` mapped over a list of values. -/
def pyReprList : List PyVal → List String
  | [] => []
  | x :: xs => pyRepr x :: pyReprList xs

end

/-- Python `str()` as used by f-string interpolation: identity on strings,
`"None"` for `None`, `repr`-style rendering of a list. -/
def pyStr : PyVal → String
  | .none => "None"
  | .str s => s
  | .list xs => pyRepr (.list xs)

/-- Python `value[i]` on the modelled values: selects from a sequence,
selects a one-character string from a string, and raises `TypeError` on
`None` (NoneType is not subscriptable). -/
def pyGetItem : PyVal → Nat → Except PyErr PyVal
  | .none, _ => .error (.typeError "NoneType object is not subscriptable")
  | .str s, i =>
    match s.toList.get? i with
    | some c => .ok (.str (String.mk [c]))
    | Option.none => .error .indexError
  | .list xs, i =>
    match xs.get? i with
    | some v => .ok v
    | Option.none => .error .indexError

/-- Keyword arguments of a Python call, as an association list. -/
def Kwargs : Type := List (String × PyVal)

/-- Python `kwargs.get(key)`: the bound value, or `None` when absent. -/
def kwGet : Kwargs → String → PyVal
  | [], _ => .none
  | (k, v) :: rest, key => if k = key then v else kwGet rest key

/-- The span role classifications used by the adapter
(`opentelemetry.trace.SpanKind`). -/
inductive PySpanKind where
  | producer
  | consumer
  | server
deriving DecidableEq

/-- One observable step of a wrapper invocation: a span being opened (with
its name and kind), the delegated call running, a span being closed. -/
inductive TraceEv where
  | spanOpen (name : String) (kind : PySpanKind)
  | delegate
  | spanClose
deriving DecidableEq

/-- The wrapped original callable, taking positional and keyword arguments
and either returning a value or raising. -/
def PyFun : Type := List PyVal → Kwargs → Except PyErr PyVal

/-- The observable outcome of one wrapper invocation: the ordered trace of
span events, the delegated calls with their exact positional and keyword
arguments, and the value returned (or exception raised) to the caller. -/
structure WrapResult where
  events : List TraceEv
  calls : List (List PyVal × Kwargs)
  result : Except PyErr PyVal

/-- The expression `args[0] if args else kwargs.get("event")` — the event
argument extraction of `_handle_wrapper`. -/
def eventArgOf (args : List PyVal) (kwargs : Kwargs) : PyVal :=
  match args with
  | a :: _ => a
  | [] => kwGet kwargs "event"

/-- The expression `args[0] if args else kwargs.get("events")` — the
events argument extraction of `_handle_many_wrapper`. -/
def eventsArgOf (args : List PyVal) (kwargs : Kwargs) : PyVal :=
  match args with
  | a :: _ => a
  | [] => kwGet kwargs "events"

/-- Embeds `_handle_wrapper(wrapped, instance, args, kwargs)`: extracts the event,
computes the span name `f"handling event {event[0]}"` (the subscript is
evaluated before the span is opened, so its failure aborts the call with no
span and no delegation), then opens a consumer span around
`await wrapped(event)` — one positional argument — and propagates the
result or failure after the span closes. -/
def _handle_wrapper (wrapped : PyFun) (args : List PyVal) (kwargs : Kwargs) :
    WrapResult :=
  let event := eventArgOf args kwargs
  match pyGetItem event 0 with
  | .error e => { events := [], calls := [], result := .error e }
  | .ok e0 =>
    { events := [.spanOpen ("handling event " ++ pyStr e0) .consumer,
                 .delegate, .spanClose]
      calls := [([event], ([] : Kwargs))]
      result := wrapped [event] [] }

/-- Embeds `_handle_many_wrapper(wrapped, instance, args, kwargs)`: extracts the
events sequence, opens a consumer span named literally
`"handling multiple events"` around `await wrapped(events)` — one
positional argument — and propagates the result or failure after the span
closes. -/
def _handle_many_wrapper (wrapped : PyFun) (args : List PyVal)
    (kwargs : Kwargs) : WrapResult :=
  let events := eventsArgOf args kwargs
  { events := [.spanOpen "handling multiple events" .consumer,
               .delegate, .spanClose]
    calls := [([events], ([] : Kwargs))]
    result := wrapped [events] [] }

/-- Embeds `_dispatch_wrapper(wrapped, instance, args, kwargs)`: reads
`kwargs.get("event_name")`, opens a producer span named
`f"Event {event_name} dispatched"` around `wrapped(*args, **kwargs)` — all
original arguments forwarded verbatim — and propagates the result or
failure after the span closes. -/
def _dispatch_wrapper (wrapped : PyFun) (args : List PyVal)
    (kwargs : Kwargs) : WrapResult :=
  let event_name := kwGet kwargs "event_name"
  { events := [.spanOpen ("Event " ++ pyStr event_name ++ " dispatched")
                 .producer,
               .delegate, .spanClose]
    calls := [(args, kwargs)]
    result := wrapped args kwargs }

/-- A span trace that is exactly one span, open for the whole delegated
call: it opens, the delegate runs, it closes — on every exit path. -/
def spanScoped (t : List TraceEv) : Prop :=
  ∃ n k, t = [.spanOpen n k, .delegate, .spanClose]

/-!
## The install / uninstall lifecycle

`FastAPIEventsInstrumentor._instrument` reflects over the modules of the
`fastapi_events.handlers` namespace: for every class member of every module
that subclasses `BaseEventHandler` and is not `BaseEventHandler` itself, it
appends the class to `self._instrumented_classes` and wraps its `handle`
and `handle_many` methods; it then wraps the module attribute `"_dispatch"`
of `fastapi_events.dispatcher`. `_uninstrument` unwraps `handle` and
`handle_many` on every recorded class and then unwraps the module attribute
`"dispatch"` of `fastapi_events.dispatcher`.

Classes are identified by natural numbers. The reflected namespace is a
list of modules, each a list of class-member identifiers in `getmembers`
order, together with the `issubclass (· , BaseEventHandler)` predicate and
the identity of `BaseEventHandler` itself.
-/

/-- The reflected `fastapi_events.handlers` namespace: module member lists
in discovery order, the `issubclass (·, BaseEventHandler)` test, and the
identity of the `BaseEventHandler` class. `issubclass` is reflexive in
Python, so the base class passes its own test. -/
structure HandlersNs where
  modules : List (List Nat)
  isHandlerSubclass : Nat → Bool
  baseId : Nat
  base_subclass : isHandlerSubclass baseId = true

/-- A method-table or module-attribute slot: either an original function
reference (identified by a number) or a `wrapt` proxy carrying a wrapper
and the `__wrapped__` reference underneath. -/
inductive Callable where
  | orig (id : Nat)
  | wrapt (wrapper : Nat) (inner : Callable)
deriving DecidableEq

/-- Wrapper identities for the three wrappers the instrumentor installs. -/
def handleWrapperId : Nat := 0

/-- Wrapper identity for `_handle_many_wrapper`. -/
def handleManyWrapperId : Nat := 1

/-- Wrapper identity for `_dispatch_wrapper`. -/
def dispatchWrapperId : Nat := 2

/-- How many wrapping layers sit on a slot (0 on a pre-wrap original). -/
def wrapDepth : Callable → Nat
  | .orig _ => 0
  | .wrapt _ inner => wrapDepth inner + 1

/-- The patched process-wide state: the `handle` and `handle_many` method
slots of every class, the `_dispatch` and `dispatch` attributes of the
`fastapi_events.dispatcher` module, and the instrumentor's
`_instrumented_classes` list. -/
structure ProcState where
  handle : Nat → Callable
  handle_many : Nat → Callable
  dispatchPriv : Callable
  dispatchPub : Callable
  instrumented : List Nat

/-- `wrapt.wrap_function_wrapper(class_, "handle", _handle_wrapper)` and
its `handle_many` sibling, together with the
`self._instrumented_classes.append(class_)` that precedes them: the loop
body of `_instrument` for one discovered class. -/
def instrumentClass (st : ProcState) (c : Nat) : ProcState :=
  { st with
    instrumented := st.instrumented ++ [c]
    handle := fun c2 =>
      if c2 = c then .wrapt handleWrapperId (st.handle c) else st.handle c2
    handle_many := fun c2 =>
      if c2 = c then .wrapt handleManyWrapperId (st.handle_many c)
      else st.handle_many c2 }

/-- The guard of the discovery loop:
`issubclass(class_, BaseEventHandler) and class_ is not BaseEventHandler`. -/
def discoveredCond (ns : HandlersNs) (c : Nat) : Bool :=
  ns.isHandlerSubclass c && c != ns.baseId

/-- Embeds `FastAPIEventsInstrumentor._instrument`: the nested `getmembers` loops
with the `issubclass(class_, BaseEventHandler) and class_ is not
BaseEventHandler` guard, followed by wrapping `"_dispatch"` on
`fastapi_events.dispatcher`. -/
def _instrument (ns : HandlersNs) (st : ProcState) : ProcState :=
  let st1 := ns.modules.foldl
    (fun s m => m.foldl
      (fun s2 c =>
        if discoveredCond ns c then instrumentClass s2 c else s2) s) st
  { st1 with dispatchPriv := .wrapt dispatchWrapperId st1.dispatchPriv }

/-- Error signalled by `unwrap` when the targeted attribute does not carry
a recorded original to restore. -/
inductive UnwrapErr where
  | notWrapped (attr : String)
deriving DecidableEq

/-- Modelled from the spec: `opentelemetry.instrumentation.utils.unwrap`
lives in this repository outside `src/`; per the spec, uninstallation
"restores the original (pre-wrap)" reference and "fails loudly (signals an
error) if ... the recorded original reference can no longer be found". So
`unwrap` on a wrapped slot yields the `__wrapped__` reference underneath,
and on an unwrapped slot signals an error. -/
def unwrapSlot (c : Callable) (attr : String) : Except UnwrapErr Callable :=
  match c with
  | .wrapt _ inner => .ok inner
  | .orig _ => .error (.notWrapped attr)

/-- The loop body of `_uninstrument` for one recorded class:
`unwrap(class_, "handle")` then `unwrap(class_, "handle_many")`. -/
def uninstrumentClassStep (s : ProcState) (c : Nat) :
    Except UnwrapErr ProcState :=
  match unwrapSlot (s.handle c) "handle" with
  | .error e => .error e
  | .ok h =>
    match unwrapSlot (s.handle_many c) "handle_many" with
    | .error e => .error e
    | .ok hm =>
      .ok { s with
        handle := fun c2 => if c2 = c then h else s.handle c2
        handle_many := fun c2 => if c2 = c then hm else s.handle_many c2 }

/-- Embeds `FastAPIEventsInstrumentor._uninstrument`: unwraps `handle` and
`handle_many` on every class in `self._instrumented_classes`, then unwraps
the module attribute `"dispatch"` (not `"_dispatch"`) of
`fastapi_events.dispatcher`. -/
def _uninstrument (st : ProcState) : Except UnwrapErr ProcState :=
  match st.instrumented.foldlM uninstrumentClassStep st with
  | .error e => .error e
  | .ok st1 =>
    match unwrapSlot st1.dispatchPub "dispatch" with
    | .error e => .error e
    | .ok d => .ok { st1 with dispatchPub := d }

/-!
## Structural lemmas about the discovery fold
-/

/-- The discovery loop of `_instrument` over one flat list of class
members. -/
def instrumentFold (ns : HandlersNs) (st : ProcState) (l : List Nat) :
    ProcState :=
  l.foldl (fun s c => if discoveredCond ns c then instrumentClass s c else s)
    st

/-- Stacks `n` identical wrapping layers on a slot. -/
def iterWrap (w : Nat) : Nat → Callable → Callable
  | 0, c => c
  | n + 1, c => .wrapt w (iterWrap w n c)

/-- Embeds the `_instrument` of the repository's older duplicate package
(`opentelemetry-instrumentation-fastapi-events`): the same discovery loops
over the handlers namespace, but guarded only by
`issubclass(class_, BaseEventHandler)` — there is no
`class_ is not BaseEventHandler` exclusion — and the dispatch function is
not wrapped. -/
def _instrument_legacy (ns : HandlersNs) (st : ProcState) : ProcState :=
  ns.modules.foldl
    (fun s m => m.foldl
      (fun s2 c =>
        if ns.isHandlerSubclass c then instrumentClass s2 c else s2) s) st

/-!
## Concrete instances used as witnesses and counterexamples

`nsEx` is a reflected namespace with one module whose class members are
`0` (the `BaseEventHandler` class itself), `1` and `2` (two concrete
handler classes). `nsDup` has two modules that both carry class `1` as a
member — the situation of a handler class imported into a second module of
the namespace. `stEx` is an uninstrumented process: every method slot and
both dispatcher attributes hold original references, and the recorded
list is empty.
-/

/-- One module containing the base class (`0`) and two handler classes. -/
def nsEx : HandlersNs :=
  { modules := [[0, 1, 2]]
    isHandlerSubclass := fun c => decide (c ≤ 2)
    baseId := 0
    base_subclass := rfl }

/-- Two modules both carrying handler class `1` as a member. -/
def nsDup : HandlersNs :=
  { modules := [[1], [1]]
    isHandlerSubclass := fun c => decide (c ≤ 1)
    baseId := 0
    base_subclass := rfl }

/-- An uninstrumented process state: all slots hold original references. -/
def stEx : ProcState :=
  { handle := fun c => .orig c
    handle_many := fun c => .orig (c + 10)
    dispatchPriv := .orig 100
    dispatchPub := .orig 101
    instrumented := [] }

/-- A wrapped original call that returns `None`. -/
def okNoneFun : PyFun := fun _ _ => .ok .none

/-- A wrapped original call that raises. -/
def raiseFun : PyFun := fun _ _ => .error (.raised 7)

/-- A concrete event: a pair whose first element is the event name. -/
def evVisitor : PyVal := .list [.str "VISITOR_SPOTTED", .none]

theorem iterWrap_wrapt (w n : Nat) (c : Callable) :
    iterWrap w n (.wrapt w c) = .wrapt w (iterWrap w n c) := by
  induction n with
  | zero => rfl
  | succ n ih => simp [iterWrap, ih]

theorem wrapDepth_iterWrap (w n : Nat) (c : Callable) :
    wrapDepth (iterWrap w n c) = n + wrapDepth c := by
  induction n with
  | zero => simp [iterWrap]
  | succ n ih => simp [iterWrap, wrapDepth, ih]; omega

theorem instrumentFold_append (ns : HandlersNs) (st : ProcState)
    (l1 l2 : List Nat) :
    instrumentFold ns st (l1 ++ l2) =
      instrumentFold ns (instrumentFold ns st l1) l2 :=
  List.foldl_append ..

/-- The nested `getmembers` loops of `_instrument` are the flat discovery
fold over the concatenation of the modules' member lists. -/
theorem _instrument_eq_flat (ns : HandlersNs) (st : ProcState) :
    _instrument ns st =
      { instrumentFold ns st ns.modules.flatten with
        dispatchPriv :=
          .wrapt dispatchWrapperId
            (instrumentFold ns st ns.modules.flatten).dispatchPriv } := by
  unfold _instrument
  suffices h : ∀ (ms : List (List Nat)) (s : ProcState),
      ms.foldl (fun s m => instrumentFold ns s m) s =
        instrumentFold ns s ms.flatten by
    have h2 := h ns.modules st
    simp only [instrumentFold] at h2 ⊢
    rw [h2]
  intro ms
  induction ms with
  | nil => intro s; rfl
  | cons m ms ih =>
    intro s
    simp only [List.foldl_cons, List.flatten_cons, instrumentFold_append]
    exact ih _

theorem instrumentFold_instrumented (ns : HandlersNs) (l : List Nat)
    (st : ProcState) :
    (instrumentFold ns st l).instrumented =
      st.instrumented ++ l.filter (discoveredCond ns) := by
  induction l generalizing st with
  | nil => simp [instrumentFold]
  | cons a l ih =>
    rw [show instrumentFold ns st (a :: l) =
          instrumentFold ns
            (if discoveredCond ns a then instrumentClass st a else st) l
        from rfl]
    by_cases h : discoveredCond ns a
    · rw [if_pos h, ih]
      simp [instrumentClass, List.filter_cons, h]
    · rw [if_neg h, ih]
      simp [List.filter_cons, h]

theorem instrumentFold_handle (ns : HandlersNs) (l : List Nat)
    (st : ProcState) (c : Nat) :
    (instrumentFold ns st l).handle c =
      iterWrap handleWrapperId ((l.filter (discoveredCond ns)).count c)
        (st.handle c) := by
  induction l generalizing st with
  | nil => simp [instrumentFold, iterWrap]
  | cons a l ih =>
    rw [show instrumentFold ns st (a :: l) =
          instrumentFold ns
            (if discoveredCond ns a then instrumentClass st a else st) l
        from rfl]
    by_cases h : discoveredCond ns a
    · rw [if_pos h, ih]
      by_cases hc : c = a
      · subst hc
        simp [instrumentClass, List.filter_cons, h, List.count_cons,
          iterWrap_wrapt, iterWrap]
      · simp [instrumentClass, List.filter_cons, h, List.count_cons,
          Ne.symm hc, hc]
    · rw [if_neg h, ih]
      simp [List.filter_cons, h]

theorem instrumentFold_handle_many (ns : HandlersNs) (l : List Nat)
    (st : ProcState) (c : Nat) :
    (instrumentFold ns st l).handle_many c =
      iterWrap handleManyWrapperId ((l.filter (discoveredCond ns)).count c)
        (st.handle_many c) := by
  induction l generalizing st with
  | nil => simp [instrumentFold, iterWrap]
  | cons a l ih =>
    rw [show instrumentFold ns st (a :: l) =
          instrumentFold ns
            (if discoveredCond ns a then instrumentClass st a else st) l
        from rfl]
    by_cases h : discoveredCond ns a
    · rw [if_pos h, ih]
      by_cases hc : c = a
      · subst hc
        simp [instrumentClass, List.filter_cons, h, List.count_cons,
          iterWrap_wrapt, iterWrap]
      · simp [instrumentClass, List.filter_cons, h, List.count_cons,
          Ne.symm hc, hc]
    · rw [if_neg h, ih]
      simp [List.filter_cons, h]

theorem instrumentFold_dispatchPriv (ns : HandlersNs) (l : List Nat)
    (st : ProcState) :
    (instrumentFold ns st l).dispatchPriv = st.dispatchPriv := by
  induction l generalizing st with
  | nil => rfl
  | cons a l ih =>
    rw [show instrumentFold ns st (a :: l) =
          instrumentFold ns
            (if discoveredCond ns a then instrumentClass st a else st) l
        from rfl, ih]
    by_cases h : discoveredCond ns a
    · rw [if_pos h]; rfl
    · rw [if_neg h]

theorem instrumentFold_dispatchPub (ns : HandlersNs) (l : List Nat)
    (st : ProcState) :
    (instrumentFold ns st l).dispatchPub = st.dispatchPub := by
  induction l generalizing st with
  | nil => rfl
  | cons a l ih =>
    rw [show instrumentFold ns st (a :: l) =
          instrumentFold ns
            (if discoveredCond ns a then instrumentClass st a else st) l
        from rfl, ih]
    by_cases h : discoveredCond ns a
    · rw [if_pos h]; rfl
    · rw [if_neg h]

/-!
## Claim theorems
-/

/-- C2: for every invocation of the wrapped dispatch entry point with
keyword argument `event_name` and arbitrary additional positional/keyword
arguments, the dispatch wrapper opens exactly one span named
`"Event " ++ event_name ++ " dispatched"` with producer role, and
delegates synchronously to the original dispatch function with all
original arguments preserved exactly, by position and keyword. -/
theorem dispatch_wrapper_producer_span_and_exact_forwarding
    (wrapped : PyFun) (args : List PyVal) (kwargs : Kwargs) (name : String)
    (h : kwGet kwargs "event_name" = .str name) :
    (_dispatch_wrapper wrapped args kwargs).events =
      [.spanOpen ("Event " ++ name ++ " dispatched") .producer,
       .delegate, .spanClose]
    ∧ (_dispatch_wrapper wrapped args kwargs).calls = [(args, kwargs)]
    ∧ (_dispatch_wrapper wrapped args kwargs).result =
        wrapped args kwargs := by
  simp [_dispatch_wrapper, h, pyStr]

/-- Witness for C2: dispatching `"VISITOR_SPOTTED"` by keyword yields the
span literally named `"Event VISITOR_SPOTTED dispatched"` with producer
role, and the original arguments reach the original dispatch function. -/
theorem dispatch_wrapper_producer_span_witness :
    (_dispatch_wrapper okNoneFun [.str "payload"]
        [("event_name", .str "VISITOR_SPOTTED")]).events =
      [.spanOpen "Event VISITOR_SPOTTED dispatched" .producer,
       .delegate, .spanClose]
    ∧ (_dispatch_wrapper okNoneFun [.str "payload"]
        [("event_name", .str "VISITOR_SPOTTED")]).calls =
      [([.str "payload"], [("event_name", .str "VISITOR_SPOTTED")])]
    ∧ (_dispatch_wrapper okNoneFun [.str "payload"]
        [("event_name", .str "VISITOR_SPOTTED")]).result =
      okNoneFun [.str "payload"] [("event_name", .str "VISITOR_SPOTTED")] :=
  dispatch_wrapper_producer_span_and_exact_forwarding okNoneFun
    [.str "payload"] [("event_name", .str "VISITOR_SPOTTED")]
    "VISITOR_SPOTTED" rfl

/-- C3: for every invocation of the wrapped single-event handler with one
event argument passed positionally or as keyword `event` — the event a
sequence whose first element is an event-name identifier — the wrapper
opens exactly one span named `"handling event " ++ event[0]` with consumer
role and delegates to the original handler with exactly that one event as a
single positional argument, propagating the result or failure unchanged. -/
theorem handle_wrapper_consumer_span_and_normalized_delegation
    (wrapped : PyFun) (args : List PyVal) (kwargs : Kwargs)
    (ev : PyVal) (n : String)
    (hargs : args = [ev] ∨ (args = [] ∧ kwGet kwargs "event" = ev))
    (h0 : pyGetItem ev 0 = .ok (.str n)) :
    (_handle_wrapper wrapped args kwargs).events =
      [.spanOpen ("handling event " ++ n) .consumer, .delegate, .spanClose]
    ∧ (_handle_wrapper wrapped args kwargs).calls = [([ev], ([] : Kwargs))]
    ∧ (_handle_wrapper wrapped args kwargs).result = wrapped [ev] [] := by
  have hev : eventArgOf args kwargs = ev := by
    rcases hargs with h | ⟨h1, h2⟩
    · subst h; rfl
    · subst h1; exact h2
  simp [_handle_wrapper, hev, h0, pyStr]

/-- Witness for C3: handling the event
`("VISITOR_SPOTTED", None)`, passed by keyword, yields the span literally
named `"handling event VISITOR_SPOTTED"` with consumer role, and the
handler receives the event as one positional argument. -/
theorem handle_wrapper_consumer_span_witness :
    (_handle_wrapper okNoneFun [] [("event", evVisitor)]).events =
      [.spanOpen "handling event VISITOR_SPOTTED" .consumer,
       .delegate, .spanClose]
    ∧ (_handle_wrapper okNoneFun [] [("event", evVisitor)]).calls =
      [([evVisitor], ([] : Kwargs))]
    ∧ (_handle_wrapper okNoneFun [] [("event", evVisitor)]).result =
      okNoneFun [evVisitor] [] :=
  handle_wrapper_consumer_span_and_normalized_delegation okNoneFun []
    [("event", evVisitor)] evVisitor "VISITOR_SPOTTED"
    (Or.inr ⟨rfl, rfl⟩) rfl

/-- C4: for every invocation of the wrapped multi-event handler with one
argument holding any non-empty sequence of events (positional or keyword
`events`), the wrapper produces exactly one span named literally
`"handling multiple events"` with consumer role, regardless of batch size
or contents, and delegates the full sequence as one positional argument. -/
theorem handle_many_wrapper_constant_span_and_full_batch
    (wrapped : PyFun) (args : List PyVal) (kwargs : Kwargs)
    (l : List PyVal)
    (hargs : args = [.list l] ∨
      (args = [] ∧ kwGet kwargs "events" = .list l))
    (_hne : l ≠ []) :
    (_handle_many_wrapper wrapped args kwargs).events =
      [.spanOpen "handling multiple events" .consumer,
       .delegate, .spanClose]
    ∧ (_handle_many_wrapper wrapped args kwargs).calls =
      [([.list l], ([] : Kwargs))]
    ∧ (_handle_many_wrapper wrapped args kwargs).result =
      wrapped [.list l] [] := by
  have hev : eventsArgOf args kwargs = .list l := by
    rcases hargs with h | ⟨h1, h2⟩
    · subst h; rfl
    · subst h1; exact h2
  simp [_handle_many_wrapper, hev]

/-- Witness for C4: a positional batch of two events yields exactly the
span literally named `"handling multiple events"` and the full batch is
delegated positionally. -/
theorem handle_many_wrapper_constant_span_witness :
    (_handle_many_wrapper okNoneFun
        [.list [evVisitor, .list [.str "OTHER", .none]]] []).events =
      [.spanOpen "handling multiple events" .consumer,
       .delegate, .spanClose]
    ∧ (_handle_many_wrapper okNoneFun
        [.list [evVisitor, .list [.str "OTHER", .none]]] []).calls =
      [([.list [evVisitor, .list [.str "OTHER", .none]]], ([] : Kwargs))]
    ∧ (_handle_many_wrapper okNoneFun
        [.list [evVisitor, .list [.str "OTHER", .none]]] []).result =
      okNoneFun [.list [evVisitor, .list [.str "OTHER", .none]]] [] :=
  handle_many_wrapper_constant_span_and_full_batch okNoneFun
    [.list [evVisitor, .list [.str "OTHER", .none]]] []
    [evVisitor, .list [.str "OTHER", .none]] (Or.inl rfl) (by simp)

/-- C6: for every wrapped call (handle, handle_many, dispatch), the wrapper
produces exactly one span for the call, the span is open for the entire
duration of the delegated call and closes on every exit path, and the
delegated call's outcome — the raised failure included — propagates to the
wrapper's caller unchanged after span closure. -/
theorem wrappers_scoped_span_and_transparent_result
    (wrapped : PyFun) (args : List PyVal) (kwargs : Kwargs) :
    ((_dispatch_wrapper wrapped args kwargs).result = wrapped args kwargs
      ∧ spanScoped (_dispatch_wrapper wrapped args kwargs).events)
    ∧ (∀ e0, pyGetItem (eventArgOf args kwargs) 0 = .ok e0 →
        (_handle_wrapper wrapped args kwargs).result =
          wrapped [eventArgOf args kwargs] []
        ∧ spanScoped (_handle_wrapper wrapped args kwargs).events)
    ∧ ((_handle_many_wrapper wrapped args kwargs).result =
        wrapped [eventsArgOf args kwargs] []
      ∧ spanScoped (_handle_many_wrapper wrapped args kwargs).events) := by
  refine ⟨⟨rfl, ⟨_, _, rfl⟩⟩, ?_, ⟨rfl, ⟨_, _, rfl⟩⟩⟩
  intro e0 h
  constructor
  · simp [_handle_wrapper, h]
  · simp only [_handle_wrapper, h]
    exact ⟨_, _, rfl⟩

/-- Witness for C6: a handler that raises still yields exactly one
open-delegate-close span scope, and the raised failure reaches the caller
unchanged; likewise for a raising dispatch call. -/
theorem wrappers_scoped_span_witness :
    ((_handle_wrapper raiseFun [evVisitor] []).result = .error (.raised 7)
      ∧ spanScoped (_handle_wrapper raiseFun [evVisitor] []).events)
    ∧ ((_dispatch_wrapper raiseFun [] []).result = .error (.raised 7)
      ∧ spanScoped (_dispatch_wrapper raiseFun [] []).events) := by
  have h := wrappers_scoped_span_and_transparent_result raiseFun [evVisitor] []
  have hd := wrappers_scoped_span_and_transparent_result raiseFun [] []
  have hh := h.2.1 (.str "VISITOR_SPOTTED") rfl
  exact ⟨⟨hh.1.trans rfl, hh.2⟩, ⟨hd.1.1.trans rfl, hd.1.2⟩⟩

/-- C9: invoking the wrapped single-event handler with no positional
arguments and no `event` keyword raises during the span-name computation
(`None` is not subscriptable), before any span is opened and before the
original handler is called. -/
theorem handle_wrapper_missing_event_raises_before_span
    (wrapped : PyFun) (kwargs : Kwargs)
    (h : kwGet kwargs "event" = .none) :
    (_handle_wrapper wrapped [] kwargs).result =
      .error (.typeError "NoneType object is not subscriptable")
    ∧ (_handle_wrapper wrapped [] kwargs).events = []
    ∧ (_handle_wrapper wrapped [] kwargs).calls = [] := by
  simp [_handle_wrapper, eventArgOf, h, pyGetItem]

/-- Witness for C9: calling the wrapped handler with empty `args` and
empty `kwargs` raises the subscript `TypeError` with no span and no
delegated call. -/
theorem handle_wrapper_missing_event_witness :
    (_handle_wrapper okNoneFun [] []).result =
      .error (.typeError "NoneType object is not subscriptable")
    ∧ (_handle_wrapper okNoneFun [] []).events = []
    ∧ (_handle_wrapper okNoneFun [] []).calls = [] :=
  handle_wrapper_missing_event_raises_before_span okNoneFun [] rfl

/-- C10: when `event_name` is passed positionally rather than by keyword,
the keyword lookup yields no value and the dispatch span is named literally
`"Event None dispatched"`, while the original arguments are still forwarded
to the original dispatch function unchanged. -/
theorem dispatch_wrapper_positional_event_name_none_span
    (wrapped : PyFun) (args : List PyVal) (kwargs : Kwargs)
    (h : kwGet kwargs "event_name" = .none) :
    (_dispatch_wrapper wrapped args kwargs).events =
      [.spanOpen "Event None dispatched" .producer, .delegate, .spanClose]
    ∧ (_dispatch_wrapper wrapped args kwargs).calls = [(args, kwargs)]
    ∧ (_dispatch_wrapper wrapped args kwargs).result =
        wrapped args kwargs := by
  unfold _dispatch_wrapper
  rw [h]
  exact ⟨rfl, rfl, rfl⟩

/-- Witness for C10: `dispatch("VISITOR_SPOTTED")` — the event name
positional — produces the span named `"Event None dispatched"` while the
positional argument is forwarded untouched. -/
theorem dispatch_wrapper_positional_event_name_witness :
    (_dispatch_wrapper okNoneFun [.str "VISITOR_SPOTTED"] []).events =
      [.spanOpen "Event None dispatched" .producer, .delegate, .spanClose]
    ∧ (_dispatch_wrapper okNoneFun [.str "VISITOR_SPOTTED"] []).calls =
      [([.str "VISITOR_SPOTTED"], ([] : Kwargs))]
    ∧ (_dispatch_wrapper okNoneFun [.str "VISITOR_SPOTTED"] []).result =
      okNoneFun [.str "VISITOR_SPOTTED"] [] :=
  dispatch_wrapper_positional_event_name_none_span okNoneFun
    [.str "VISITOR_SPOTTED"] [] rfl

/-- C5: `install()` enumerates every class reachable from the handlers
namespace that subclasses the event-handler base capability and explicitly
excludes the abstract base capability class itself from being recorded or
wrapped. -/
theorem instrument_enumerates_subclasses_excluding_base
    (ns : HandlersNs) (st : ProcState) (h : st.instrumented = []) :
    (∀ c, c ∈ (_instrument ns st).instrumented ↔
      ∃ m ∈ ns.modules, c ∈ m ∧ ns.isHandlerSubclass c = true
        ∧ c ≠ ns.baseId)
    ∧ (_instrument ns st).handle ns.baseId = st.handle ns.baseId
    ∧ (_instrument ns st).handle_many ns.baseId =
        st.handle_many ns.baseId := by
  have hbase : discoveredCond ns ns.baseId = false := by
    simp [discoveredCond]
  have hflat := _instrument_eq_flat ns st
  have hlist : (_instrument ns st).instrumented =
      (ns.modules.flatten).filter (discoveredCond ns) := by
    rw [hflat]
    show (instrumentFold ns st ns.modules.flatten).instrumented = _
    rw [instrumentFold_instrumented, h]
    simp
  have hnotmem :
      ns.baseId ∉ (ns.modules.flatten).filter (discoveredCond ns) := by
    intro hmem
    have := (List.mem_filter.mp hmem).2
    rw [hbase] at this
    exact Bool.false_ne_true this
  refine ⟨?_, ?_, ?_⟩
  · intro c
    rw [hlist]
    constructor
    · intro hc
      obtain ⟨hmem, hcond⟩ := List.mem_filter.mp hc
      obtain ⟨m, hm, hcm⟩ := List.mem_flatten.mp hmem
      have hcond2 : ns.isHandlerSubclass c = true ∧ c ≠ ns.baseId := by
        simpa [discoveredCond] using hcond
      exact ⟨m, hm, hcm, hcond2.1, hcond2.2⟩
    · rintro ⟨m, hm, hcm, hsub, hne⟩
      exact List.mem_filter.mpr
        ⟨List.mem_flatten.mpr ⟨m, hm, hcm⟩,
         by simp [discoveredCond, hsub, hne]⟩
  · rw [hflat]
    show (instrumentFold ns st ns.modules.flatten).handle ns.baseId = _
    rw [instrumentFold_handle,
      List.count_eq_zero.mpr hnotmem]
    rfl
  · rw [hflat]
    show (instrumentFold ns st ns.modules.flatten).handle_many ns.baseId = _
    rw [instrumentFold_handle_many,
      List.count_eq_zero.mpr hnotmem]
    rfl

/-- Witness for C5: on a namespace with base class `0` and handler classes
`1`, `2`, installing on a fresh process records class `1` (a discovered
subclass) and leaves the base class's own method slots untouched. -/
theorem instrument_enumerates_witness :
    1 ∈ (_instrument nsEx stEx).instrumented
    ∧ (_instrument nsEx stEx).handle nsEx.baseId = stEx.handle nsEx.baseId
    ∧ (_instrument nsEx stEx).handle_many nsEx.baseId =
        stEx.handle_many nsEx.baseId := by
  have h := instrument_enumerates_subclasses_excluding_base nsEx stEx rfl
  refine ⟨(h.1 1).mpr ⟨[0, 1, 2], ?_, ?_, ?_, ?_⟩, h.2.1, h.2.2⟩
  · decide
  · decide
  · decide
  · decide

/-- C7 counterexample: the discovery loop has no duplicate guard, so on a
namespace whose two modules both carry handler class `1` as a member, one
`install()` on an uninstrumented process records class `1` twice and stacks
two wrapping layers on each of its two methods. -/
theorem instrument_double_wrap_counterexample :
    (_instrument nsDup stEx).instrumented.count 1 = 2
    ∧ wrapDepth ((_instrument nsDup stEx).handle 1) = 2
    ∧ wrapDepth ((_instrument nsDup stEx).handle_many 1) = 2 :=
  ⟨rfl, rfl, rfl⟩

/-- C7 as amended: provided every class occurs as a member of at most one
module of the namespace (the discovered sequence has no duplicates), one
`install()` on an uninstrumented process records each discovered class
exactly once and puts exactly one wrapping layer on each of its two
methods. -/
theorem instrument_single_wrap_per_discovered_class
    (ns : HandlersNs) (st : ProcState)
    (h0 : st.instrumented = [])
    (hnodup : ((ns.modules.flatten).filter (discoveredCond ns)).Nodup)
    (hfresh : ∀ c, wrapDepth (st.handle c) = 0
      ∧ wrapDepth (st.handle_many c) = 0) :
    ∀ c ∈ (_instrument ns st).instrumented,
      (_instrument ns st).instrumented.count c = 1
      ∧ wrapDepth ((_instrument ns st).handle c) = 1
      ∧ wrapDepth ((_instrument ns st).handle_many c) = 1 := by
  have hflat := _instrument_eq_flat ns st
  have hlist : (_instrument ns st).instrumented =
      (ns.modules.flatten).filter (discoveredCond ns) := by
    rw [hflat]
    show (instrumentFold ns st ns.modules.flatten).instrumented = _
    rw [instrumentFold_instrumented, h0]
    simp
  intro c hc
  rw [hlist] at hc
  have hcount : ((ns.modules.flatten).filter (discoveredCond ns)).count c
      = 1 := List.count_eq_one_of_mem hnodup hc
  refine ⟨by rw [hlist]; exact hcount, ?_, ?_⟩
  · rw [hflat]
    show wrapDepth
      ((instrumentFold ns st ns.modules.flatten).handle c) = 1
    rw [instrumentFold_handle, hcount, wrapDepth_iterWrap, (hfresh c).1]
  · rw [hflat]
    show wrapDepth
      ((instrumentFold ns st ns.modules.flatten).handle_many c) = 1
    rw [instrumentFold_handle_many, hcount, wrapDepth_iterWrap,
      (hfresh c).2]

/-- Witness for the amended C7: on the duplicate-free namespace `nsEx`,
class `1` is recorded once and each of its methods carries one layer. -/
theorem instrument_single_wrap_witness :
    (_instrument nsEx stEx).instrumented.count 1 = 1
    ∧ wrapDepth ((_instrument nsEx stEx).handle 1) = 1
    ∧ wrapDepth ((_instrument nsEx stEx).handle_many 1) = 1 :=
  instrument_single_wrap_per_discovered_class nsEx stEx rfl (by decide)
    (fun _ => ⟨rfl, rfl⟩) 1 (by decide)

/-- C1 (evaluating the code at the failing input): `_instrument` wraps the
module attribute `"_dispatch"`, but `_uninstrument` unwraps the attribute
`"dispatch"`, which was never wrapped — so install-then-uninstall never
restores the wrapped dispatch function: on a fresh process it leaves
`_dispatch` wrapped and the unwrap of `"dispatch"` finds no recorded
original. -/
theorem uninstall_misses_wrapped_dispatch :
    (_instrument nsEx stEx).dispatchPriv =
      .wrapt dispatchWrapperId (.orig 100)
    ∧ _uninstrument (_instrument nsEx stEx) =
      .error (.notWrapped "dispatch") :=
  ⟨rfl, rfl⟩

/-- C8: `uninstall()` with no prior `install()` fails loudly: with an empty
recorded list and an unwrapped dispatch attribute, `_uninstrument` signals
an error instead of silently doing nothing. -/
theorem uninstall_without_install_fails_loudly
    (st : ProcState) (i : Nat)
    (h1 : st.instrumented = []) (h2 : st.dispatchPub = .orig i) :
    _uninstrument st = .error (.notWrapped "dispatch") := by
  unfold _uninstrument
  rw [h1]
  show (match unwrapSlot st.dispatchPub "dispatch" with
      | .error e => (.error e : Except UnwrapErr ProcState)
      | .ok d => .ok { st with dispatchPub := d }) =
    .error (.notWrapped "dispatch")
  rw [h2]
  rfl

/-- Witness for C8: on the fresh process `stEx`, `_uninstrument` errors. -/
theorem uninstall_without_install_witness :
    _uninstrument stEx = .error (.notWrapped "dispatch") :=
  uninstall_without_install_fails_loudly stEx 101 rfl rfl

/-- C5 counterexample: the repository's older duplicate package guards its
discovery loop only with `issubclass(class_, BaseEventHandler)`, so that
copy of `install()` records the `BaseEventHandler` class itself and wraps
its methods: on the namespace `nsEx` the base class (`0`) lands in the
recorded list with one wrapping layer on each method. -/
theorem instrument_legacy_records_base_counterexample :
    nsEx.baseId ∈ (_instrument_legacy nsEx stEx).instrumented
    ∧ wrapDepth ((_instrument_legacy nsEx stEx).handle nsEx.baseId) = 1
    ∧ wrapDepth ((_instrument_legacy nsEx stEx).handle_many nsEx.baseId)
      = 1 := by
  refine ⟨?_, rfl, rfl⟩
  decide
